import Mathlib

/-!
Shallow embedding of the appointment-booking webhook (src/main.py) and proofs
about its cost calculator, availability search, and slot-reservation
transaction.

Modelling conventions:
* Python dicts become association lists with `dictGet` / `dictSet` mimicking
  `d.get(k)` / `d[k] = v` (unique keys, first match wins; set replaces in
  place, appending when absent — Python dict update semantics).
* Dollar amounts become exact rationals (all rates in the source are whole
  dollars, so the float arithmetic of the source is exact).
* Calendar dates become natural numbers ordered chronologically; adding one
  day is `+ 1` (`datetime.timedelta(days=1)` in the source).
* The Firestore transaction (`update_patient_and_doctor_in_transaction`)
  buffers writes and commits them atomically only when the transactional
  function returns without raising; raising `ValueError` aborts with no side
  effects.  The embedded transaction therefore returns either the committed
  new state or a `slotUnavailable` failure leaving the store untouched.
* `uuid.uuid4()` and `SERVER_TIMESTAMP` are external inputs; the booking
  record (including its generated id) is passed to the reservation as data.
* SMTP delivery (`send_email_to_patient`) is modelled by an outcome parameter
  `SmtpOutcome`; the source wraps the send in `try/except Exception`, so the
  function returns normally for every outcome.
-/

namespace BookAppointment

/-! ### Python dict operations on association lists -/

/-- Python `m.get(k)`: first binding of `k` in the association list. -/
def dictGet {κ α : Type} [DecidableEq κ] : List (κ × α) → κ → Option α
  | [], _ => none
  | (k', v) :: rest, k => if k' = k then some v else dictGet rest k

/-- Python `m[k] = v`: replace the binding of `k`, appending it when absent. -/
def dictSet {κ α : Type} [DecidableEq κ] : List (κ × α) → κ → α → List (κ × α)
  | [], k, v => [(k, v)]
  | (k', v') :: rest, k, v =>
      if k' = k then (k, v) :: rest else (k', v') :: dictSet rest k v

theorem dictGet_dictSet_self {κ α : Type} [DecidableEq κ]
    (m : List (κ × α)) (k : κ) (v : α) :
    dictGet (dictSet m k v) k = some v := by
  induction m with
  | nil => simp [dictSet, dictGet]
  | cons kv rest ih =>
      obtain ⟨k', v'⟩ := kv
      by_cases h : k' = k
      · simp [dictSet, dictGet, h]
      · simp [dictSet, dictGet, h, ih]

theorem dictGet_dictSet_ne {κ α : Type} [DecidableEq κ]
    (m : List (κ × α)) (k k₁ : κ) (v : α) (h : k₁ ≠ k) :
    dictGet (dictSet m k v) k₁ = dictGet m k₁ := by
  induction m with
  | nil => simp [dictSet, dictGet, Ne.symm h]
  | cons kv rest ih =>
      obtain ⟨k', v'⟩ := kv
      by_cases hk : k' = k
      · subst hk
        simp [dictSet, dictGet, Ne.symm h]
      · by_cases hk1 : k' = k₁
        · subst hk1
          simp [dictSet, dictGet, hk]
        · simp [dictSet, dictGet, hk, hk1, ih]

/-! ### Rate table and cost calculator (src/main.py lines 91-119) -/

structure Rate where
  appointment_cost : ℚ
  co_pay : ℚ
deriving DecidableEq

structure CostBreakdown where
  totalCost : ℚ
  patientCopay : ℚ
  insuranceClaim : ℚ
deriving DecidableEq

/-- The `"default"` entry of `INSURANCE_RATES`. -/
def defaultRate : Rate := { appointment_cost := 200, co_pay := 50 }

/-- The module-level `INSURANCE_RATES` dictionary. -/
def INSURANCE_RATES : List (String × Rate) :=
  [("MedStar Health", { appointment_cost := 150, co_pay := 25 }),
   ("Blue Cross Blue Shield", { appointment_cost := 180, co_pay := 30 }),
   ("default", defaultRate)]

/-- `calculate_appointment_cost` (lines 107-119):
`INSURANCE_RATES.get(provider, INSURANCE_RATES["default"])`, then the three
fields of the returned dictionary. -/
def calculate_appointment_cost (insurance_provider : String) : CostBreakdown :=
  let rates := (dictGet INSURANCE_RATES insurance_provider).getD defaultRate
  { totalCost := rates.appointment_cost
    patientCopay := rates.co_pay
    insuranceClaim := rates.appointment_cost - rates.co_pay }

/-! ### Data model -/

structure Booking where
  bookingId : String
  bookingType : String
  doctorName : String
  specialty : String
  appointmentDate : Nat
  appointmentTime : String
  costBreakdown : CostBreakdown
  status : String
deriving DecidableEq

structure Patient where
  name : String
  surname : String
  dateOfBirth : String
  insuranceProvider : String
  policyNumber : String
  email : String
  bookings : List Booking
deriving DecidableEq

structure Doctor where
  id : String
  name : String
  specialty : String
  city : String
  availability : List (Nat × List String)
deriving DecidableEq

/-- Python `doctor['availability'].get(date, [])`. -/
def getAvail (d : Doctor) (date : Nat) : List String :=
  (dictGet d.availability date).getD []

/-- The Firestore field-path update `availability.{date} = l`. -/
def setAvail (d : Doctor) (date : Nat) (l : List String) : Doctor :=
  { d with availability := dictSet d.availability date l }

/-! ### Availability search (src/main.py lines 209-236, 260-329)

`find_available_doctors` keeps the doctors whose `specialty` and `city` equal
the request (Python `==` / the Firestore `==` filter, both case-sensitive)
and whose availability entry for the requested date exists and is a
non-empty list.  The `isinstance(..., list)` guard is always true in the
typed model. -/

def availOk (doc : Doctor) (date : Nat) : Bool :=
  (dictGet doc.availability date).isSome && !(getAvail doc date).isEmpty

def find_available_doctors (specialty location : String) (date : Nat)
    (doctors : List Doctor) : List Doctor :=
  doctors.filter fun doc =>
    doc.specialty == specialty && doc.city == location && availOk doc date

theorem availOk_iff (doc : Doctor) (date : Nat) :
    availOk doc date = true ↔ getAvail doc date ≠ [] := by
  unfold availOk getAvail
  cases h : dictGet doc.availability date <;> simp [h]

/-- Structured result of the `search_doctors` webhook branch. -/
inductive SearchResult
  | missingInfo
  | pastDate
  | foundOnDate (date : Nat) (doctors : List Doctor)
  | foundOnNextDate (date : Nat) (doctors : List Doctor)
  | noneFound
deriving DecidableEq

/-- The fallback loop `for i in range(1, 8)` (lines 298-312): try each offset
in order, returning the first date whose search result is non-empty. -/
def nextDateSearchAux (specialty location : String) (doctors : List Doctor)
    (requested : Nat) : List Nat → Option (Nat × List Doctor)
  | [] => none
  | i :: rest =>
      let r := find_available_doctors specialty location (requested + i) doctors
      if r.isEmpty then nextDateSearchAux specialty location doctors requested rest
      else some (requested + i, r)

def nextDateSearch (specialty location : String) (doctors : List Doctor)
    (requested : Nat) : Option (Nat × List Doctor) :=
  nextDateSearchAux specialty location doctors requested [1, 2, 3, 4, 5, 6, 7]

/-- The `search_doctors` branch of the webhook (lines 260-329): missing
specialty or location is reported first, then a requested date strictly
before today is rejected, and only then is the store searched. -/
def search_doctors (specialty location : Option String)
    (requested today : Nat) (doctors : List Doctor) : SearchResult :=
  match specialty, location with
  | some sp, some loc =>
      if requested < today then .pastDate
      else
        let avail := find_available_doctors sp loc requested doctors
        if avail.isEmpty then
          match nextDateSearch sp loc doctors requested with
          | some (d, docs) => .foundOnNextDate d docs
          | none => .noneFound
        else .foundOnDate requested avail
  | _, _ => .missingInfo

/-! ### Slot reservation (src/main.py lines 418-546)

The `book_appointment` branch of the webhook.  `pk` / `dk` stand for the
patient and doctor document references found by the name queries (lines
443-466).  Firestore transactions buffer `transaction.update` writes and
commit them atomically only when the transactional function returns; a
raised `ValueError` aborts the transaction with no side effects, so the
embedded transaction either returns the new patient/doctor pair or reports
the slot unavailable while the store is left untouched. -/

structure TxnState where
  patient : Patient
  doctor : Doctor
deriving DecidableEq

inductive TxnResult
  | ok (s : TxnState)
  | slotUnavailable
deriving DecidableEq

/-- `update_patient_and_doctor_in_transaction` (lines 485-501): append the
booking to the patient's bookings, re-read the doctor's availability list
for the booked date, and either remove the booked time from it (Python
`list.remove` deletes the first occurrence) or raise
`ValueError("Time slot is no longer available.")`. -/
def update_patient_and_doctor_in_transaction (s : TxnState)
    (booking_info : Booking) : TxnResult :=
  let current_bookings := s.patient.bookings ++ [booking_info]
  let patient2 := { s.patient with bookings := current_bookings }
  let availability_list_trans :=
    getAvail s.doctor booking_info.appointmentDate
  if booking_info.appointmentTime ∈ availability_list_trans then
    TxnResult.ok
      { patient := patient2
        doctor := setAvail s.doctor booking_info.appointmentDate
          (availability_list_trans.erase booking_info.appointmentTime) }
  else TxnResult.slotUnavailable

structure Store where
  patients : List (String × Patient)
  doctors : List (String × Doctor)
deriving DecidableEq

inductive BookResult
  | success (b : Booking)
  | slotUnavailable
  | patientNotFound
  | doctorNotFound
  | bookingError
deriving DecidableEq

/-- Run the transactional closure against the store: read the referenced
patient and doctor, execute `update_patient_and_doctor_in_transaction`, and
commit both buffered writes on success; on `ValueError` the store is
unchanged and the webhook answers that the slot is no longer available
(lines 503-513). -/
def run_reserve_txn (store : Store) (pk dk : String) (b : Booking) :
    BookResult × Store :=
  match dictGet store.patients pk with
  | none => (.patientNotFound, store)
  | some p =>
      match dictGet store.doctors dk with
      | none => (.doctorNotFound, store)
      | some d =>
          match update_patient_and_doctor_in_transaction ⟨p, d⟩ b with
          | .ok s =>
              (.success b,
                { patients := dictSet store.patients pk s.patient
                  doctors := dictSet store.doctors dk s.doctor })
          | .slotUnavailable => (.slotUnavailable, store)

/-- Outcome of the SMTP session inside `send_email_to_patient`. -/
inductive SmtpOutcome
  | sent
  | smtpError
deriving DecidableEq

/-- The SMTP send itself (lines 197-204), which can fail. -/
def smtpSend : SmtpOutcome → Except String Unit
  | .sent => .ok ()
  | .smtpError => .error "Failed to send email via SMTP"

/-- `send_email_to_patient` (lines 122-206): the whole SMTP session is
wrapped in `try/except Exception`, which logs a failure and returns
normally, so the function never raises regardless of the SMTP outcome. -/
def send_email_to_patient (outcome : SmtpOutcome) : Except String Unit :=
  match smtpSend outcome with
  | .ok _ => .ok ()
  | .error _ => .ok ()

/-- The database branch of the `book_appointment` webhook (lines 444-519):
look up the patient and doctor, pre-check the availability list, run the
transaction, and on success attempt the confirmation email; an exception
escaping the email step would be caught by the outer handler (line 514) and
reported as a booking error, after the transaction has already committed. -/
def book_appointment_db (store : Store) (pk dk : String) (b : Booking)
    (smtp : SmtpOutcome) : BookResult × Store :=
  match dictGet store.patients pk with
  | none => (.patientNotFound, store)
  | some _ =>
      match dictGet store.doctors dk with
      | none => (.doctorNotFound, store)
      | some d =>
          if b.appointmentTime ∈ getAvail d b.appointmentDate then
            match run_reserve_txn store pk dk b with
            | (.success bk, s1) =>
                match send_email_to_patient smtp with
                | .ok _ => (.success bk, s1)
                | .error _ => (.bookingError, s1)
            | r => r
          else (.slotUnavailable, store)

/-- Outcome of the mock branch (lines 520-541): a single failure message
covers patient not found, doctor not found, and slot unavailable. -/
inductive MockResult
  | success (b : Booking)
  | couldNotComplete
deriving DecidableEq

def MockResult.isSuccess : MockResult → Bool
  | .success _ => true
  | .couldNotComplete => false

/-- The mock-data branch of `book_appointment` (lines 520-541), taken when no
store is configured: the patient is looked up by full name, but the doctor
is always `MOCK_DOCTORS.get('gp-002')` — the requested doctor name is only
recorded in the booking's `doctorName` field.  The availability check, the
in-place slot removal, and the appended booking all use `gp-002`. -/
def book_appointment_mock (patients : List (String × Patient))
    (doctors : List (String × Doctor))
    (patient_full_name doctor_name specialty : String)
    (appointment_date : Nat)
    (appointment_time insurance_provider bookingId : String) :
    MockResult × List (String × Patient) × List (String × Doctor) :=
  match dictGet patients patient_full_name, dictGet doctors "gp-002" with
  | some patient_data, some doctor_data =>
      if appointment_time ∈ getAvail doctor_data appointment_date then
        let cost_details := calculate_appointment_cost insurance_provider
        let booking_details : Booking :=
          { bookingId := bookingId
            bookingType := "appointment"
            doctorName := doctor_name
            specialty := specialty
            appointmentDate := appointment_date
            appointmentTime := appointment_time
            costBreakdown := cost_details
            status := "confirmed" }
        let doctor2 := setAvail doctor_data appointment_date
          ((getAvail doctor_data appointment_date).erase appointment_time)
        let patient2 := { patient_data with
          bookings := patient_data.bookings ++ [booking_details] }
        (.success booking_details,
          dictSet patients patient_full_name patient2,
          dictSet doctors "gp-002" doctor2)
      else (.couldNotComplete, patients, doctors)
  | _, _ => (.couldNotComplete, patients, doctors)

/-- The module-level `MOCK_PATIENTS` dictionary (lines 46-56). -/
def MOCK_PATIENTS : List (String × Patient) :=
  [("Tahmina Akhtar",
    { name := "Tahmina", surname := "Akhtar", dateOfBirth := "1992-03-12",
      insuranceProvider := "MedStar Health", policyNumber := "D123456",
      email := "tahmina.akhtar2807@gmail.com", bookings := [] })]

/-- The module-level `MOCK_DOCTORS` dictionary (lines 59-88); the date
strings `2025-09-07` / `2025-09-08` are encoded as the naturals
20250907 / 20250908. -/
def MOCK_DOCTORS : List (String × Doctor) :=
  [("gp-001",
    { id := "gp-001", name := "Dr. Lucy Morgan, MRCGP",
      specialty := "General Practitioner", city := "New York",
      availability := [(20250907, ["13:00", "14:00"])] }),
   ("gp-002",
    { id := "gp-002", name := "Dr. Adam Collins, MRCGP",
      specialty := "General Practitioner", city := "London",
      availability :=
        [(20250907, []),
         (20250908, ["09:00", "10:00", "11:00", "12:00", "13:00"])] })]

theorem getAvail_setAvail_self (d : Doctor) (date : Nat) (l : List String) :
    getAvail (setAvail d date l) date = l := by
  simp [getAvail, setAvail, dictGet_dictSet_self]

theorem getAvail_setAvail_ne (d : Doctor) (date date₁ : Nat) (l : List String)
    (h : date₁ ≠ date) :
    getAvail (setAvail d date l) date₁ = getAvail d date₁ := by
  simp [getAvail, setAvail, dictGet_dictSet_ne _ _ _ _ h]

end BookAppointment

namespace BookAppointment

/-! ### Claim theorems: cost calculator -/

/-- C5: in every CostBreakdown produced by `calculate_appointment_cost`, the
`insuranceClaim` field equals `totalCost` minus `patientCopay`. -/
theorem C5_insurance_claim_eq_total_minus_copay (p : String) :
    (calculate_appointment_cost p).insuranceClaim =
      (calculate_appointment_cost p).totalCost -
        (calculate_appointment_cost p).patientCopay := rfl

/-- C4: `calculate_appointment_cost` is total (it is a Lean function, so it
never fails); `totalCost` and `patientCopay` are taken verbatim from the
selected rate entry (the provider's entry when present, otherwise the
`"default"` entry); and any provider absent from the rate table yields
exactly the result for provider `"default"`. -/
theorem C4_unknown_provider_uses_default (p : String) :
    ((calculate_appointment_cost p).totalCost =
        ((dictGet INSURANCE_RATES p).getD defaultRate).appointment_cost ∧
      (calculate_appointment_cost p).patientCopay =
        ((dictGet INSURANCE_RATES p).getD defaultRate).co_pay) ∧
    (dictGet INSURANCE_RATES p = none →
      calculate_appointment_cost p = calculate_appointment_cost "default") := by
  refine ⟨⟨rfl, rfl⟩, fun h => ?_⟩
  unfold calculate_appointment_cost
  rw [h]
  rfl

/-- Witness for C4 at the concrete unknown provider `"Unknown Provider"`. -/
theorem C4_unknown_provider_uses_default_witness :
    ((calculate_appointment_cost "Unknown Provider").totalCost =
        ((dictGet INSURANCE_RATES "Unknown Provider").getD defaultRate).appointment_cost ∧
      (calculate_appointment_cost "Unknown Provider").patientCopay =
        ((dictGet INSURANCE_RATES "Unknown Provider").getD defaultRate).co_pay) ∧
    (dictGet INSURANCE_RATES "Unknown Provider" = none →
      calculate_appointment_cost "Unknown Provider" =
        calculate_appointment_cost "default") :=
  C4_unknown_provider_uses_default "Unknown Provider"

/-! ### Claim theorems: availability search -/

/-- Two strings are equal up to letter case when lowering every character
makes them equal. -/
def eqUpToCase (a b : String) : Bool :=
  a.data.map Char.toLower == b.data.map Char.toLower

/-- A doctor whose specialty and city differ from a request only in letter
case, used to test case-insensitivity of the search. -/
def lowercaseDoctor : Doctor :=
  { id := "gp-lc", name := "Dr. Lower Case", specialty := "general practitioner",
    city := "london", availability := [(100, ["09:00"])] }

/-- C6 counterexample: `find_available_doctors` compares specialty and city
with Python `==`, which is case-sensitive.  `lowercaseDoctor` differs from
the request `("General Practitioner", "London")` only in letter case and has
a non-empty availability list for the requested date, yet the search result
is empty, so the doctor is not included as the claim requires. -/
theorem C6_case_insensitive_counterexample :
    eqUpToCase lowercaseDoctor.specialty "General Practitioner" = true ∧
    eqUpToCase lowercaseDoctor.city "London" = true ∧
    getAvail lowercaseDoctor 100 ≠ [] ∧
    find_available_doctors "General Practitioner" "London" 100
      [lowercaseDoctor] = [] := by
  refine ⟨by decide, by decide, by decide, rfl⟩

/-- C6 amended: the search returns exactly the doctors whose specialty and
city match the request by exact (case-sensitive) string equality and whose
availability list for the requested date is non-empty. -/
theorem C6_search_membership (specialty location : String) (date : Nat)
    (doctors : List Doctor) (d : Doctor) :
    d ∈ find_available_doctors specialty location date doctors ↔
      d ∈ doctors ∧ d.specialty = specialty ∧ d.city = location ∧
        getAvail d date ≠ [] := by
  simp [find_available_doctors, List.mem_filter, availOk_iff, and_assoc]

/-- C8: a search request carrying a specialty and a location whose requested
date is strictly earlier than the caller's current date is rejected with the
past-date error, and the result does not depend on the doctor store — the
availability search is never invoked. -/
theorem C8_past_date_rejected_before_search (sp loc : String)
    (requested today : Nat) (doctors : List Doctor)
    (h : requested < today) :
    search_doctors (some sp) (some loc) requested today doctors =
      .pastDate := by
  simp [search_doctors, h]

/-- A doctor whose earliest open date is two days after the request. -/
def docA : Doctor :=
  { id := "doc-a", name := "Dr. A", specialty := "GP", city := "L",
    availability := [(102, ["09:00"])] }

/-- A doctor whose earliest open date is three days after the request. -/
def docB : Doctor :=
  { id := "doc-b", name := "Dr. B", specialty := "GP", city := "L",
    availability := [(103, ["10:00"])] }

/-- C7 counterexample: with the requested date 100 free of matches, `docA`
open only on 102 and `docB` open only on 103, the fallback loop stops at the
first non-empty day and returns only `docA`; `docB` matches the request and
has an open date, yet it is dropped from the result instead of being
returned tagged with its own earliest date. -/
theorem C7_earliest_first_counterexample :
    docB.specialty = "GP" ∧ docB.city = "L" ∧ getAvail docB 103 ≠ [] ∧
    search_doctors (some "GP") (some "L") 100 100 [docA, docB] =
      .foundOnNextDate 102 [docA] ∧
    docB ∉ [docA] := by
  refine ⟨rfl, rfl, by decide, by decide, by decide⟩

/-- The fallback loop stops at the first offset (in list order) whose search
is non-empty; for a strictly increasing offset list, every smaller offset in
the list therefore searched empty. -/
theorem nextDateSearchAux_first_nonempty (sp loc : String) (ds : List Doctor)
    (requested : Nat) (d : Nat) (docs : List Doctor) :
    ∀ offs : List Nat, offs.Pairwise (· < ·) →
      nextDateSearchAux sp loc ds requested offs = some (d, docs) →
      ∃ i ∈ offs, d = requested + i ∧
        docs = find_available_doctors sp loc (requested + i) ds ∧
        docs ≠ [] ∧
        ∀ j ∈ offs, j < i →
          find_available_doctors sp loc (requested + j) ds = [] := by
  intro offs
  induction offs with
  | nil =>
      intro _ h
      simp [nextDateSearchAux] at h
  | cons i rest ih =>
      intro hs h
      rw [List.pairwise_cons] at hs
      obtain ⟨hlt, hrest⟩ := hs
      simp only [nextDateSearchAux] at h
      split at h
      · rename_i he
        obtain ⟨i', hi'mem, hd, hdocs, hne, hall⟩ := ih hrest h
        refine ⟨i', List.mem_cons_of_mem _ hi'mem, hd, hdocs, hne, ?_⟩
        intro j hj hji
        rcases List.mem_cons.mp hj with rfl | hj'
        · exact List.isEmpty_iff.mp he
        · exact hall j hj' hji
      · rename_i hne
        have hp := Option.some.inj h
        obtain ⟨rfl, rfl⟩ : requested + i = d ∧
            find_available_doctors sp loc (requested + i) ds = docs :=
          ⟨congrArg Prod.fst hp, congrArg Prod.snd hp⟩
        refine ⟨i, List.mem_cons_self _ _, rfl, rfl, ?_, ?_⟩
        · intro hnil
          exact hne (by simp [hnil])
        · intro j hj hji
          rcases List.mem_cons.mp hj with rfl | hj'
          · omega
          · exact absurd (hlt j hj') (by omega)

/-- C7 amended: when the requested date yields no doctors, the fallback
scans the next seven days in ascending order and returns the doctors
available on the first scanned day that has any, all tagged with that single
day; matching doctors not available on that day (including any whose
earliest open date is later, or beyond the seven-day window) are not
returned. -/
theorem C7_next_date_fallback (sp loc : String) (requested today : Nat)
    (ds : List Doctor) (d : Nat) (docs : List Doctor)
    (h : search_doctors (some sp) (some loc) requested today ds =
      .foundOnNextDate d docs) :
    find_available_doctors sp loc requested ds = [] ∧
    ∃ i, 1 ≤ i ∧ i ≤ 7 ∧ d = requested + i ∧
      docs = find_available_doctors sp loc (requested + i) ds ∧
      docs ≠ [] ∧
      ∀ j, 1 ≤ j → j < i →
        find_available_doctors sp loc (requested + j) ds = [] := by
  simp only [search_doctors] at h
  split at h
  · exact absurd h (by simp)
  · split at h
    · rename_i hempty
      split at h
      · rename_i d' docs' hns
        cases h
        obtain ⟨i, himem, hd, hdocs, hne, hall⟩ :=
          nextDateSearchAux_first_nonempty sp loc ds requested _ _
            [1, 2, 3, 4, 5, 6, 7] (by decide) hns
        have hi : i = 1 ∨ i = 2 ∨ i = 3 ∨ i = 4 ∨ i = 5 ∨ i = 6 ∨ i = 7 := by
          simpa using himem
        refine ⟨List.isEmpty_iff.mp hempty, i, by omega, by omega, hd, hdocs,
          hne, ?_⟩
        intro j h1 h2
        have h7 : j ≤ 7 := by omega
        refine hall j ?_ h2
        interval_cases j <;> simp
      · exact absurd h (by simp)
    · exact absurd h (by simp)

/-- Witness for C7 at the concrete two-doctor store of the counterexample:
the fallback result is characterised by offset 2. -/
theorem C7_next_date_fallback_witness :
    find_available_doctors "GP" "L" 100 [docA, docB] = [] ∧
    ∃ i, 1 ≤ i ∧ i ≤ 7 ∧ 102 = 100 + i ∧
      [docA] = find_available_doctors "GP" "L" (100 + i) [docA, docB] ∧
      ([docA] : List Doctor) ≠ [] ∧
      ∀ j, 1 ≤ j → j < i →
        find_available_doctors "GP" "L" (100 + j) [docA, docB] = [] :=
  C7_next_date_fallback "GP" "L" 100 100 [docA, docB] 102 [docA] (by decide)

/-- Witness for C8 at a concrete past date. -/
theorem C8_past_date_rejected_before_search_witness :
    search_doctors (some "General Practitioner") (some "London") 99 100
      [lowercaseDoctor] = .pastDate :=
  C8_past_date_rejected_before_search "General Practitioner" "London" 99 100
    [lowercaseDoctor] (by decide)

/-! ### Claim theorems: slot reservation -/

/-- C2: when the requested time is not in the doctor's freshly-read
availability list for the requested date, `book_appointment` fails with the
slot-unavailable message and the store is returned completely unchanged: no
patient's bookings and no doctor's availability are touched. -/
theorem C2_slot_unavailable_aborts_unchanged (store : Store) (pk dk : String)
    (b : Booking) (p : Patient) (d : Doctor) (smtp : SmtpOutcome)
    (hp : dictGet store.patients pk = some p)
    (hd : dictGet store.doctors dk = some d)
    (ht : b.appointmentTime ∉ getAvail d b.appointmentDate) :
    book_appointment_db store pk dk b smtp = (.slotUnavailable, store) := by
  simp [book_appointment_db, hp, hd, ht]

/-- A concrete booking request for the mock store, used by witnesses. -/
def sampleBooking : Booking :=
  { bookingId := "b-1", bookingType := "appointment",
    doctorName := "Dr. Adam Collins, MRCGP",
    specialty := "General Practitioner", appointmentDate := 20250908,
    appointmentTime := "09:00",
    costBreakdown := calculate_appointment_cost "MedStar Health",
    status := "confirmed" }

/-- The same request at a time `gp-002` does not offer. -/
def sampleBookingBadTime : Booking :=
  { sampleBooking with appointmentTime := "08:00" }

/-- Witness for C2: booking `08:00` (not offered) against the mock store
fails with the slot unavailable and leaves the store unchanged. -/
theorem C2_slot_unavailable_aborts_unchanged_witness :
    book_appointment_db ⟨MOCK_PATIENTS, MOCK_DOCTORS⟩ "Tahmina Akhtar"
      "gp-002" sampleBookingBadTime .sent =
      (.slotUnavailable, ⟨MOCK_PATIENTS, MOCK_DOCTORS⟩) :=
  C2_slot_unavailable_aborts_unchanged ⟨MOCK_PATIENTS, MOCK_DOCTORS⟩
    "Tahmina Akhtar" "gp-002" sampleBookingBadTime
    (MOCK_PATIENTS.head (by decide)).2 (MOCK_DOCTORS.get ⟨1, by decide⟩).2
    .sent (by decide) (by decide) (by decide)

/-- C3: a successful reserve changes the store in exactly two places: the
booked time is removed from the booked doctor's list for the booked date
(first occurrence erased; under the data-model invariant that a label occurs
at most once, membership of every other label is unchanged, and every other
date of that doctor and every other doctor keep their availability), and
exactly one booking is appended to the requesting patient's booking
sequence (every other patient is unchanged). -/
theorem C3_success_exact_frame (store : Store) (pk dk : String)
    (b : Booking) (p : Patient) (d : Doctor)
    (hp : dictGet store.patients pk = some p)
    (hd : dictGet store.doctors dk = some d)
    (ht : b.appointmentTime ∈ getAvail d b.appointmentDate) :
    (run_reserve_txn store pk dk b).1 = .success b ∧
    dictGet (run_reserve_txn store pk dk b).2.patients pk =
      some { p with bookings := p.bookings ++ [b] } ∧
    (∀ pk₁, pk₁ ≠ pk →
      dictGet (run_reserve_txn store pk dk b).2.patients pk₁ =
        dictGet store.patients pk₁) ∧
    (∃ d₁, dictGet (run_reserve_txn store pk dk b).2.doctors dk = some d₁ ∧
      getAvail d₁ b.appointmentDate =
        (getAvail d b.appointmentDate).erase b.appointmentTime ∧
      (∀ t, t ≠ b.appointmentTime →
        (t ∈ getAvail d₁ b.appointmentDate ↔
          t ∈ getAvail d b.appointmentDate)) ∧
      ∀ date₁, date₁ ≠ b.appointmentDate →
        getAvail d₁ date₁ = getAvail d date₁) ∧
    (∀ dk₁, dk₁ ≠ dk →
      dictGet (run_reserve_txn store pk dk b).2.doctors dk₁ =
        dictGet store.doctors dk₁) := by
  have hrun : run_reserve_txn store pk dk b =
      (.success b,
        { patients := dictSet store.patients pk
            { p with bookings := p.bookings ++ [b] }
          doctors := dictSet store.doctors dk
            (setAvail d b.appointmentDate
              ((getAvail d b.appointmentDate).erase b.appointmentTime)) }) := by
    simp [run_reserve_txn, hp, hd, update_patient_and_doctor_in_transaction,
      ht]
  rw [hrun]
  refine ⟨rfl, dictGet_dictSet_self _ _ _, ?_, ?_, ?_⟩
  · intro pk₁ hpk₁
    exact dictGet_dictSet_ne _ _ _ _ hpk₁
  · refine ⟨_, dictGet_dictSet_self _ _ _, getAvail_setAvail_self _ _ _, ?_,
      ?_⟩
    · intro t hne
      rw [getAvail_setAvail_self]
      exact List.mem_erase_of_ne hne
    · intro date₁ hdate₁
      exact getAvail_setAvail_ne _ _ _ _ hdate₁
  · intro dk₁ hdk₁
    exact dictGet_dictSet_ne _ _ _ _ hdk₁

/-- Witness for C3: booking `09:00` on 2025-09-08 against the mock store
succeeds and has the stated frame, instantiated at patient key
`gp-001` / time `10:00` / date 20250907 for the universally quantified
frame parts. -/
theorem C3_success_exact_frame_witness :
    (run_reserve_txn ⟨MOCK_PATIENTS, MOCK_DOCTORS⟩ "Tahmina Akhtar" "gp-002"
        sampleBooking).1 = .success sampleBooking ∧
    dictGet (run_reserve_txn ⟨MOCK_PATIENTS, MOCK_DOCTORS⟩ "Tahmina Akhtar"
        "gp-002" sampleBooking).2.patients "Tahmina Akhtar" =
      some { (MOCK_PATIENTS.head (by decide)).2 with
        bookings := (MOCK_PATIENTS.head (by decide)).2.bookings ++
          [sampleBooking] } ∧
    (∀ pk₁, pk₁ ≠ "Tahmina Akhtar" →
      dictGet (run_reserve_txn ⟨MOCK_PATIENTS, MOCK_DOCTORS⟩ "Tahmina Akhtar"
          "gp-002" sampleBooking).2.patients pk₁ =
        dictGet MOCK_PATIENTS pk₁) ∧
    (∃ d₁, dictGet (run_reserve_txn ⟨MOCK_PATIENTS, MOCK_DOCTORS⟩
        "Tahmina Akhtar" "gp-002" sampleBooking).2.doctors "gp-002" =
          some d₁ ∧
      getAvail d₁ sampleBooking.appointmentDate =
        (getAvail (MOCK_DOCTORS.get ⟨1, by decide⟩).2
          sampleBooking.appointmentDate).erase
            sampleBooking.appointmentTime ∧
      (∀ t, t ≠ sampleBooking.appointmentTime →
        (t ∈ getAvail d₁ sampleBooking.appointmentDate ↔
          t ∈ getAvail (MOCK_DOCTORS.get ⟨1, by decide⟩).2
            sampleBooking.appointmentDate)) ∧
      ∀ date₁, date₁ ≠ sampleBooking.appointmentDate →
        getAvail d₁ date₁ =
          getAvail (MOCK_DOCTORS.get ⟨1, by decide⟩).2 date₁) ∧
    (∀ dk₁, dk₁ ≠ "gp-002" →
      dictGet (run_reserve_txn ⟨MOCK_PATIENTS, MOCK_DOCTORS⟩ "Tahmina Akhtar"
          "gp-002" sampleBooking).2.doctors dk₁ =
        dictGet MOCK_DOCTORS dk₁) :=
  C3_success_exact_frame ⟨MOCK_PATIENTS, MOCK_DOCTORS⟩ "Tahmina Akhtar"
    "gp-002" sampleBooking (MOCK_PATIENTS.head (by decide)).2
    (MOCK_DOCTORS.get ⟨1, by decide⟩).2 (by decide) (by decide) (by decide)

/-- C1: two reserve attempts racing on the same doctor/date/time triple.
Firestore transactions are serializable, so every interleaving of the two
atomic units behaves as one complete transaction followed by the other, and
because the initial store is arbitrary this statement covers both serial
orders.  Under the data-model invariant that a time label occurs at most
once in a date's list, the first transaction commits exactly one appended
booking and removes the slot, and the second observes the slot gone, aborts
with the slot-unavailable outcome, and changes nothing — so no duplicate
booking for the triple is ever created. -/
theorem C1_concurrent_reserve_one_winner (store : Store) (pk pk₂ dk : String)
    (b b₂ : Booking) (p p₂ : Patient) (d : Doctor)
    (hp : dictGet store.patients pk = some p)
    (hp₂ : dictGet store.patients pk₂ = some p₂)
    (hd : dictGet store.doctors dk = some d)
    (ht : b.appointmentTime ∈ getAvail d b.appointmentDate)
    (hnd : (getAvail d b.appointmentDate).Nodup)
    (hdate : b₂.appointmentDate = b.appointmentDate)
    (htime : b₂.appointmentTime = b.appointmentTime) :
    ∃ s₁, run_reserve_txn store pk dk b = (.success b, s₁) ∧
      dictGet s₁.patients pk =
        some { p with bookings := p.bookings ++ [b] } ∧
      (∃ d₁, dictGet s₁.doctors dk = some d₁ ∧
        b.appointmentTime ∉ getAvail d₁ b.appointmentDate) ∧
      run_reserve_txn s₁ pk₂ dk b₂ = (.slotUnavailable, s₁) := by
  have hrun : run_reserve_txn store pk dk b =
      (.success b,
        { patients := dictSet store.patients pk
            { p with bookings := p.bookings ++ [b] }
          doctors := dictSet store.doctors dk
            (setAvail d b.appointmentDate
              ((getAvail d b.appointmentDate).erase b.appointmentTime)) }) := by
    simp [run_reserve_txn, hp, hd, update_patient_and_doctor_in_transaction,
      ht]
  refine ⟨_, hrun, dictGet_dictSet_self _ _ _, ?_, ?_⟩
  · exact ⟨_, dictGet_dictSet_self _ _ _, by
      rw [getAvail_setAvail_self]
      exact hnd.not_mem_erase⟩
  · have hnotmem : b₂.appointmentTime ∉
        getAvail (setAvail d b.appointmentDate
          ((getAvail d b.appointmentDate).erase b.appointmentTime))
          b₂.appointmentDate := by
      rw [hdate, htime, getAvail_setAvail_self]
      exact hnd.not_mem_erase
    by_cases hpk : pk₂ = pk
    · subst hpk
      simp [run_reserve_txn, dictGet_dictSet_self,
        update_patient_and_doctor_in_transaction, hnotmem]
    · simp [run_reserve_txn, dictGet_dictSet_ne _ _ _ _ hpk, hp₂,
        dictGet_dictSet_self, update_patient_and_doctor_in_transaction,
        hnotmem]

/-- Witness for C1: the same patient races twice for `gp-002`'s `09:00` on
2025-09-08 in the mock store. -/
theorem C1_concurrent_reserve_one_winner_witness :
    ∃ s₁, run_reserve_txn ⟨MOCK_PATIENTS, MOCK_DOCTORS⟩ "Tahmina Akhtar"
        "gp-002" sampleBooking = (.success sampleBooking, s₁) ∧
      dictGet s₁.patients "Tahmina Akhtar" =
        some { (MOCK_PATIENTS.head (by decide)).2 with
          bookings := (MOCK_PATIENTS.head (by decide)).2.bookings ++
            [sampleBooking] } ∧
      (∃ d₁, dictGet s₁.doctors "gp-002" = some d₁ ∧
        sampleBooking.appointmentTime ∉
          getAvail d₁ sampleBooking.appointmentDate) ∧
      run_reserve_txn s₁ "Tahmina Akhtar" "gp-002" sampleBooking =
        (.slotUnavailable, s₁) :=
  C1_concurrent_reserve_one_winner ⟨MOCK_PATIENTS, MOCK_DOCTORS⟩
    "Tahmina Akhtar" "Tahmina Akhtar" "gp-002" sampleBooking sampleBooking
    (MOCK_PATIENTS.head (by decide)).2 (MOCK_PATIENTS.head (by decide)).2
    (MOCK_DOCTORS.get ⟨1, by decide⟩).2 (by decide) (by decide) (by decide)
    (by decide) (by decide) rfl rfl

/-- C9: once the reservation transaction has committed, the notification
outcome never reverts or fails the booking: for every SMTP outcome the
caller receives the success result carrying the booking, and the final
store is exactly the store the transaction committed. -/
theorem C9_notification_failure_never_reverts (store : Store)
    (pk dk : String) (b : Booking) (p : Patient) (d : Doctor)
    (smtp : SmtpOutcome)
    (hp : dictGet store.patients pk = some p)
    (hd : dictGet store.doctors dk = some d)
    (ht : b.appointmentTime ∈ getAvail d b.appointmentDate) :
    book_appointment_db store pk dk b smtp =
      (.success b, (run_reserve_txn store pk dk b).2) := by
  have hrun : run_reserve_txn store pk dk b =
      (.success b,
        { patients := dictSet store.patients pk
            { p with bookings := p.bookings ++ [b] }
          doctors := dictSet store.doctors dk
            (setAvail d b.appointmentDate
              ((getAvail d b.appointmentDate).erase b.appointmentTime)) }) := by
    simp [run_reserve_txn, hp, hd, update_patient_and_doctor_in_transaction,
      ht]
  cases smtp <;>
    simp [book_appointment_db, hp, hd, ht, hrun, send_email_to_patient,
      smtpSend]

/-- Witness for C9 at a failing SMTP send: the booking still succeeds with
the committed store. -/
theorem C9_notification_failure_never_reverts_witness :
    book_appointment_db ⟨MOCK_PATIENTS, MOCK_DOCTORS⟩ "Tahmina Akhtar"
      "gp-002" sampleBooking .smtpError =
      (.success sampleBooking,
        (run_reserve_txn ⟨MOCK_PATIENTS, MOCK_DOCTORS⟩ "Tahmina Akhtar"
          "gp-002" sampleBooking).2) :=
  C9_notification_failure_never_reverts ⟨MOCK_PATIENTS, MOCK_DOCTORS⟩
    "Tahmina Akhtar" "gp-002" sampleBooking
    (MOCK_PATIENTS.head (by decide)).2 (MOCK_DOCTORS.get ⟨1, by decide⟩).2
    .smtpError (by decide) (by decide) (by decide)

/-- C10: in mock mode the doctor is always resolved to `gp-002`: for every
two requested doctor names the success/failure outcome and the resulting
doctor availabilities coincide, and a successful booking requires the
requested time to be in `gp-002`'s availability for the requested date. -/
theorem C10_mock_mode_resolves_gp002 (patients : List (String × Patient))
    (doctors : List (String × Doctor)) (pname n₁ n₂ specialty : String)
    (date : Nat) (time provider bid : String) :
    ((book_appointment_mock patients doctors pname n₁ specialty date time
        provider bid).1.isSuccess =
      (book_appointment_mock patients doctors pname n₂ specialty date time
        provider bid).1.isSuccess) ∧
    ((book_appointment_mock patients doctors pname n₁ specialty date time
        provider bid).2.2 =
      (book_appointment_mock patients doctors pname n₂ specialty date time
        provider bid).2.2) ∧
    ((book_appointment_mock patients doctors pname n₁ specialty date time
        provider bid).1.isSuccess = true →
      ∃ d, dictGet doctors "gp-002" = some d ∧ time ∈ getAvail d date) := by
  cases hgp : dictGet patients pname with
  | none => simp [book_appointment_mock, hgp, MockResult.isSuccess]
  | some patient_data =>
      cases hgd : dictGet doctors "gp-002" with
      | none => simp [book_appointment_mock, hgp, hgd, MockResult.isSuccess]
      | some doctor_data =>
          by_cases htm : time ∈ getAvail doctor_data date
          · refine ⟨?_, ?_, fun _ => ⟨doctor_data, rfl, htm⟩⟩ <;>
              simp [book_appointment_mock, hgp, hgd, htm,
                MockResult.isSuccess]
          · simp [book_appointment_mock, hgp, hgd, htm,
              MockResult.isSuccess]

/-- Witness for C10: a fictitious requested doctor name and the real
`gp-002` name produce the same outcome against the mock data, and success
implies the time is in `gp-002`'s list. -/
theorem C10_mock_mode_resolves_gp002_witness :
    ((book_appointment_mock MOCK_PATIENTS MOCK_DOCTORS "Tahmina Akhtar"
        "Dr. Nobody" "General Practitioner" 20250908 "09:00"
        "MedStar Health" "b-1").1.isSuccess =
      (book_appointment_mock MOCK_PATIENTS MOCK_DOCTORS "Tahmina Akhtar"
        "Dr. Adam Collins, MRCGP" "General Practitioner" 20250908 "09:00"
        "MedStar Health" "b-1").1.isSuccess) ∧
    ((book_appointment_mock MOCK_PATIENTS MOCK_DOCTORS "Tahmina Akhtar"
        "Dr. Nobody" "General Practitioner" 20250908 "09:00"
        "MedStar Health" "b-1").2.2 =
      (book_appointment_mock MOCK_PATIENTS MOCK_DOCTORS "Tahmina Akhtar"
        "Dr. Adam Collins, MRCGP" "General Practitioner" 20250908 "09:00"
        "MedStar Health" "b-1").2.2) ∧
    ((book_appointment_mock MOCK_PATIENTS MOCK_DOCTORS "Tahmina Akhtar"
        "Dr. Nobody" "General Practitioner" 20250908 "09:00"
        "MedStar Health" "b-1").1.isSuccess = true →
      ∃ d, dictGet MOCK_DOCTORS "gp-002" = some d ∧
        "09:00" ∈ getAvail d 20250908) :=
  C10_mock_mode_resolves_gp002 MOCK_PATIENTS MOCK_DOCTORS "Tahmina Akhtar"
    "Dr. Nobody" "Dr. Adam Collins, MRCGP" "General Practitioner" 20250908
    "09:00" "MedStar Health" "b-1"

end BookAppointment
